import Mathlib

/-!
Verification development for the `mam` VOD repository: a shallow embedding of
the cache-aside playlist resolver (`vod_main_server.py`), the transcode job
runner (`video_transcoding_main_server.py`) and the Redis key adapter
(`redis_adapter.py`), together with theorems settling the frozen claims about
the specification.
-/

namespace Mam

/-! ## Python string primitives

The endpoints manipulate Python strings via `str.strip`, `str.endswith`,
`str.splitlines`, `"\n".join` and `pathlib.PurePath.stem`/`.name`.  We embed
each of these over `List Char`, faithful to CPython semantics (whitespace is
restricted to the ASCII whitespace set that `str.strip` removes, which covers
every input these services see). -/

/-- Characters removed by Python `str.strip()` (ASCII whitespace subset). -/
def isPyWs (c : Char) : Bool :=
  c = ' ' || c = '\t' || c = '\n' || c = '\x0d' || c = '\x0b' || c = '\x0c'

/-- Strip leading and trailing whitespace from a char list, as `str.strip()`. -/
def stripChars (cs : List Char) : List Char :=
  ((cs.dropWhile isPyWs).reverse.dropWhile isPyWs).reverse

/-- Python `s.strip()`. -/
def pyStrip (s : String) : String := ⟨stripChars s.data⟩

/-- Boolean list-prefix test (used for `str.endswith` and MinIO list prefixes). -/
def isPrefOf : List Char → List Char → Bool
  | [], _ => true
  | _ :: _, [] => false
  | a :: as, b :: bs => a = b && isPrefOf as bs

/-- Python `s.endswith(suf)`. -/
def pyEndsWith (s suf : String) : Bool :=
  isPrefOf suf.data.reverse s.data.reverse

/-- Boolean substring test: does `pat` occur contiguously inside `s`? -/
def infixCheck (pat s : List Char) : Bool :=
  match s with
  | [] => isPrefOf pat []
  | _ :: rest => isPrefOf pat s || infixCheck pat rest

/-- String-level substring containment, Python `pat in s`. -/
def strContains (s pat : String) : Bool := infixCheck pat.data s.data

/-- Characters treated as line boundaries by Python `str.splitlines`. -/
def isLineBreak (c : Char) : Bool :=
  c = '\n' || c = '\x0d' || c = '\x0b' || c = '\x0c' ||
  c = '\x1c' || c = '\x1d' || c = '\x1e' || c = '\x85' ||
  c = '\u2028' || c = '\u2029'

/-- Worker for `splitlines`; `acc` holds the current line reversed. -/
def splitlinesAux : List Char → List Char → List String
  | [], acc => if acc.isEmpty then [] else [⟨acc.reverse⟩]
  | '\x0d' :: '\n' :: rest, acc => ⟨acc.reverse⟩ :: splitlinesAux rest []
  | c :: rest, acc =>
    if isLineBreak c then ⟨acc.reverse⟩ :: splitlinesAux rest []
    else splitlinesAux rest (c :: acc)

/-- Python `s.splitlines()`: split on line boundaries, `\r\n` counting as one,
with no trailing empty line for a trailing newline. -/
def splitlines (s : String) : List String := splitlinesAux s.data []

/-- Python `sep.join(xs)`. -/
def pyJoin (sep : String) : List String → String
  | [] => ""
  | [x] => x
  | x :: y :: rest => x ++ sep ++ pyJoin sep (y :: rest)

/-- Last index at which `c` occurs in `cs` (Python `str.rfind`, as an option). -/
def rfindIdx (cs : List Char) (c : Char) : Option Nat :=
  ((List.range cs.length).filter (fun i => cs.getD i ' ' = c)).getLast?

/-- Split a char list on a separator character (kernel-reducible `str.split`). -/
def splitOnCharAux (sep : Char) : List Char → List Char → List String
  | [], acc => [⟨acc.reverse⟩]
  | c :: rest, acc =>
    if c = sep then ⟨acc.reverse⟩ :: splitOnCharAux sep rest []
    else splitOnCharAux sep rest (c :: acc)

/-- Python `PurePosixPath(p).name`: the final path component ('' and '.'
components dropped by path parsing). -/
def pathName (p : String) : String :=
  (((splitOnCharAux '/' p.data []).filter (fun c => c ≠ "" && c ≠ ".")).getLastD "")

/-- Stem of a single path component: drop the suffix after the last dot when
that dot is neither the first nor the last character (CPython `PurePath.stem`). -/
def stemOfName (name : String) : String :=
  match rfindIdx name.data '.' with
  | some i => if 0 < i && i < name.data.length - 1 then ⟨name.data.take i⟩ else name
  | none => name

/-- Python `Path(p).stem`, the derivation of `video_name` from `object_path`
used at `vod_main_server.py` line 126 and `video_transcoding_main_server.py`
line 177. -/
def pathStem (p : String) : String := stemOfName (pathName p)

example : pathStem "movie.mp4" = "movie" := by decide
example : pathStem "dir/sub/movie.tar.gz" = "movie.tar" := by decide
example : pathStem "movie.mkv" = "movie" := by decide
example : pyStrip "  seg0.ts " = "seg0.ts" := by decide
example : pyEndsWith "seg0.ts" ".ts" = true := by decide
example : pyEndsWith "#EXTM3U" ".ts" = false := by decide
example : splitlines "#EXTM3U\nseg0.ts\n#EXT-X-ENDLIST" =
    ["#EXTM3U", "seg0.ts", "#EXT-X-ENDLIST"] := by decide
example : splitlines "a\x0d\nb\n" = ["a", "b"] := by decide
example : pyJoin "\n" ["a", "b", "c"] = "a\nb\nc" := by decide
example : strContains "http://m/v/seg0.ts?sig" "seg0.ts" = true := by decide

/-! ## Basic lemmas about the string primitives -/

theorem data_append (s t : String) : (s ++ t).data = s.data ++ t.data := rfl

theorem str_append_assoc (a b c : String) : a ++ b ++ c = a ++ (b ++ c) := by
  apply String.ext
  simp [data_append, List.append_assoc]

theorem isPrefOf_append (p r : List Char) : isPrefOf p (p ++ r) = true := by
  induction p with
  | nil => rfl
  | cons a as ih => simp [isPrefOf, ih]

theorem exists_of_isPrefOf {p s : List Char} (h : isPrefOf p s = true) :
    ∃ r, s = p ++ r := by
  induction p generalizing s with
  | nil => exact ⟨s, rfl⟩
  | cons a as ih =>
    cases s with
    | nil => simp [isPrefOf] at h
    | cons b bs =>
      simp only [isPrefOf, Bool.and_eq_true, decide_eq_true_eq] at h
      obtain ⟨hab, h2⟩ := h
      obtain ⟨r, hr⟩ := ih h2
      exact ⟨r, by cases hab; rw [hr]; rfl⟩

theorem infixCheck_of_pref {pat s : List Char} (h : isPrefOf pat s = true) :
    infixCheck pat s = true := by
  cases s with
  | nil => simpa [infixCheck] using h
  | cons c rest => simp [infixCheck, h]

theorem infixCheck_of_decomp (pat l r : List Char) :
    infixCheck pat (l ++ pat ++ r) = true := by
  induction l with
  | nil => exact infixCheck_of_pref (by simpa using isPrefOf_append pat r)
  | cons c cs ih =>
    simp only [List.cons_append, infixCheck, Bool.or_eq_true]
    exact Or.inr ih

theorem decomp_of_infixCheck {pat s : List Char} (h : infixCheck pat s = true) :
    ∃ l r, s = l ++ pat ++ r := by
  induction s with
  | nil =>
    obtain ⟨r, hr⟩ := exists_of_isPrefOf (by simpa [infixCheck] using h)
    have hpat : pat = [] := by
      cases pat with
      | nil => rfl
      | cons a as => simp at hr
    exact ⟨[], [], by simp [hpat]⟩
  | cons c rest ih =>
    simp only [infixCheck, Bool.or_eq_true] at h
    cases h with
    | inl hp =>
      obtain ⟨r, hr⟩ := exists_of_isPrefOf hp
      exact ⟨[], r, by simp [hr]⟩
    | inr hrest =>
      obtain ⟨l, r, hr⟩ := ih hrest
      exact ⟨c :: l, r, by simp [hr]⟩

theorem strContains_append (a b c : String) : strContains (a ++ b ++ c) b = true := by
  unfold strContains
  rw [data_append, data_append]
  exact infixCheck_of_decomp b.data a.data c.data

theorem strContains_trans {u k p : String} (h1 : strContains u k = true)
    (h2 : strContains k p = true) : strContains u p = true := by
  obtain ⟨l1, r1, hu⟩ := decomp_of_infixCheck h1
  obtain ⟨l2, r2, hk⟩ := decomp_of_infixCheck h2
  have hu2 : u.data = (l1 ++ l2) ++ p.data ++ (r2 ++ r1) := by
    rw [hu, hk]; simp [List.append_assoc]
  unfold strContains
  rw [hu2]
  exact infixCheck_of_decomp p.data (l1 ++ l2) (r2 ++ r1)

theorem contains_of_pyJoin_mem (sep x : String) (xs : List String) (hx : x ∈ xs) :
    ∃ pre post : String, pyJoin sep xs = pre ++ x ++ post := by
  induction xs with
  | nil => cases hx
  | cons y ys ih =>
    cases hx with
    | head =>
      cases ys with
      | nil => exact ⟨"", "", by simp [pyJoin]⟩
      | cons z zs =>
        refine ⟨"", sep ++ pyJoin sep (z :: zs), ?_⟩
        simp only [pyJoin]
        rw [str_append_assoc]
        simp
    | tail _ hmem =>
      cases ys with
      | nil => cases hmem
      | cons z zs =>
        obtain ⟨pre, post, hj⟩ := ih hmem
        refine ⟨y ++ sep ++ pre, post, ?_⟩
        simp only [pyJoin]
        rw [hj]
        simp only [str_append_assoc]

/-! ## Redis adapter (`redis_adapter.py`)

The adapter builds every cache key by prefixing a namespace constant, and all
endpoint cache traffic goes through these keys. -/

def REDIS_VIDEO_PREFIX : String := "vod:playlist"

def REDIS_IMAGE_PREFIX : String := "vod:thumbnail"

/-- TTL applied by `setex` in both namespaces (45 minutes, in seconds). -/
def REDIS_TTL_SECONDS : Nat := 2700

/-- Key used by `get_cached_playlist` / `set_cached_playlist` /
`invalidate_playlist_cache`. -/
def playlistCacheKey (video_name : String) : String :=
  REDIS_VIDEO_PREFIX ++ ":" ++ video_name

/-- Key used by `get_cached_thumbnail` / `set_cached_thumbnail` /
`invalidate_thumbnail_cache`. -/
def thumbnailCacheKey (img_key : String) : String :=
  REDIS_IMAGE_PREFIX ++ ":" ++ img_key

/-- Redis key read and written by `serve_signed_thumbnail`
(`vod_main_server.py` lines 261-280): it calls `get_cached_playlist` and
`set_cached_playlist` on `f"{bucket_name}/{img_path}"`. -/
def serve_signed_thumbnail_cacheKey (bucket_name img_path : String) : String :=
  playlistCacheKey (bucket_name ++ "/" ++ img_path)

/-- Redis key used by `stream_thumbnail_image` (lines 289-300): it calls
`get_cached_thumbnail` / `set_cached_thumbnail` on the same composite key. -/
def stream_thumbnail_image_cacheKey (bucket_name img_path : String) : String :=
  thumbnailCacheKey (bucket_name ++ "/" ++ img_path)

/-- Redis key deleted by `delete_cache_img` (line 324), via
`invalidate_thumbnail_cache`. -/
def delete_cache_img_cacheKey (img_path : String) : String :=
  thumbnailCacheKey img_path

/-- Redis key deleted by `delete_cache_video` (line 186), via
`invalidate_playlist_cache`. -/
def delete_cache_video_cacheKey (video_name : String) : String :=
  playlistCacheKey video_name

theorem playlistCacheKey_take (a : String) :
    (playlistCacheKey a).data.take 5 = "vod:p".data := by
  have h : (playlistCacheKey a).data = "vod:playlist:".data ++ a.data := rfl
  rw [h, List.take_append_eq_append_take]
  simp

theorem thumbnailCacheKey_take (b : String) :
    (thumbnailCacheKey b).data.take 5 = "vod:t".data := by
  have h : (thumbnailCacheKey b).data = "vod:thumbnail:".data ++ b.data := rfl
  rw [h, List.take_append_eq_append_take]
  simp

theorem playlistCacheKey_ne_thumbnailCacheKey (a b : String) :
    playlistCacheKey a ≠ thumbnailCacheKey b := by
  intro h
  have h5 : ("vod:p" : String).data = ("vod:t" : String).data := by
    rw [← playlistCacheKey_take a, ← thumbnailCacheKey_take b, h]
  exact absurd h5 (by decide)

/-- C7 counterexample: the signed-URL cache entry of `serve_signed_thumbnail`
(GET /asset/covers/show1.jpg/thumbnail) is read and written under the playlist
namespace `vod:playlist:`, not the thumbnail namespace `vod:thumbnail:`, so it
is false that every thumbnail/signed-URL cache operation uses the thumbnail
namespace. -/
theorem c7_thumbnail_route_key_in_playlist_namespace :
    isPrefOf "vod:playlist:".data
      (serve_signed_thumbnail_cacheKey "covers" "show1.jpg").data = true ∧
    isPrefOf "vod:thumbnail:".data
      (serve_signed_thumbnail_cacheKey "covers" "show1.jpg").data = false := by
  decide

/-- C7 (amended): the playlist and thumbnail prefixes build disjoint key
namespaces — no key of one namespace equals a key of the other — and
`delete_cache_img` and `stream_thumbnail_image` use the thumbnail namespace
while the playlist operations use the playlist namespace; however
`serve_signed_thumbnail` reads and writes its thumbnail signed-URL entries
through the playlist namespace. -/
theorem c7_cache_key_namespaces (a b : String) :
    playlistCacheKey a ≠ thumbnailCacheKey b ∧
    delete_cache_img_cacheKey a = thumbnailCacheKey a ∧
    stream_thumbnail_image_cacheKey a b = thumbnailCacheKey (a ++ "/" ++ b) ∧
    delete_cache_video_cacheKey a = playlistCacheKey a ∧
    serve_signed_thumbnail_cacheKey a b = playlistCacheKey (a ++ "/" ++ b) :=
  ⟨playlistCacheKey_ne_thumbnailCacheKey a b, rfl, rfl, rfl, rfl⟩

/-- C10 counterexample: the two distinct object paths `movie.mp4` and
`movie.mkv` both derive the video name `movie`, so the derivation is not
collision-free within one bucket. -/
theorem c10_stem_collision_cex :
    pathStem "movie.mp4" = pathStem "movie.mkv" ∧
    ("movie.mp4" : String) ≠ "movie.mkv" := by
  decide

/-- C10 (amended): the derivation of `video_name` from `object_path` is
deterministic (it is a pure function of the path, `Path(path).stem`), but it is
not collision-free: distinct object paths can map to the same `video_name`,
e.g. `movie.mp4` and `movie.mkv` both map to `movie`. -/
theorem c10_stem_deterministic_not_collision_free :
    pathStem "movie.mp4" = "movie" ∧ pathStem "movie.mkv" = "movie" ∧
    ∃ p q : String, p ≠ q ∧ pathStem p = pathStem q :=
  ⟨by decide, by decide, "movie.mp4", "movie.mkv", by decide, by decide⟩

/-! ## The poll loop of the stream route (`vod_main_server.py` lines 148-156)

After a successful transcode submission the resolver polls MinIO for the
playlist object: `for _ in range(10)`, each iteration fetching the object,
breaking on success and sleeping one second in the bare `except`.  The `else`
of the loop raises the 504.  `fetch n` is the outcome of the fetch performed
by iteration `n` (a double over the object store). -/

/-- Observable outcome of one run of the poll loop: the text fetched (if any),
the number of fetch attempts performed, and the number of one-second sleeps. -/
structure PollResult where
  result : Option String
  checks : Nat
  sleeps : Nat
deriving DecidableEq

/-- Poll-loop worker: `i` is the index of the next attempt, the second
argument the remaining iteration budget of `range(10)`. -/
def pollLoopAux (fetch : Nat → Option String) : Nat → Nat → PollResult
  | _, 0 => ⟨none, 0, 0⟩
  | i, b + 1 =>
    match fetch i with
    | some t => ⟨some t, 1, 0⟩
    | none =>
      let r := pollLoopAux fetch (i + 1) b
      ⟨r.result, r.checks + 1, r.sleeps + 1⟩

/-- The poll loop as written: ten iterations starting at attempt 0. -/
def pollLoop (fetch : Nat → Option String) : PollResult := pollLoopAux fetch 0 10

theorem pollLoopAux_checks_le (fetch : Nat → Option String) (i b : Nat) :
    (pollLoopAux fetch i b).checks ≤ b := by
  induction b generalizing i with
  | zero => exact Nat.le_refl 0
  | succ n ih =>
    cases hfi : fetch i with
    | some t => simp [pollLoopAux, hfi]
    | none =>
      simp only [pollLoopAux, hfi]
      exact Nat.succ_le_succ (ih (i + 1))

theorem pollLoopAux_first_success (fetch : Nat → Option String) (t : String) :
    ∀ b i k, k < b → (∀ j, j < k → fetch (i + j) = none) → fetch (i + k) = some t →
      pollLoopAux fetch i b = ⟨some t, k + 1, k⟩ := by
  intro b
  induction b with
  | zero => intro i k hk; omega
  | succ n ih =>
    intro i k hk hnone hsome
    cases k with
    | zero =>
      have h0 : fetch i = some t := by simpa using hsome
      simp [pollLoopAux, h0]
    | succ m =>
      have h0 : fetch i = none := by simpa using hnone 0 (Nat.succ_pos m)
      have hnone2 : ∀ j, j < m → fetch (i + 1 + j) = none := by
        intro j hj
        have he : i + 1 + j = i + (j + 1) := by omega
        rw [he]
        exact hnone (j + 1) (by omega)
      have hsome2 : fetch (i + 1 + m) = some t := by
        have he : i + 1 + m = i + (m + 1) := by omega
        rw [he]; exact hsome
      simp only [pollLoopAux, h0]
      rw [ih (i + 1) m (by omega) hnone2 hsome2]

theorem pollLoopAux_never (fetch : Nat → Option String)
    (h : ∀ j, fetch j = none) (b : Nat) :
    ∀ i, pollLoopAux fetch i b = ⟨none, b, b⟩ := by
  induction b with
  | zero => intro i; rfl
  | succ n ih => intro i; simp [pollLoopAux, h i, ih (i + 1)]

/-- C2: in lazy-transcode mode the resolver polls the object store at most 10
times, one one-second sleep between consecutive attempts, stops at the first
successful fetch (performing `i + 1` checks when attempt `i` is the first to
succeed), and when the playlist never appears it fails only after performing
exactly 10 checks. -/
theorem c2_poll_bounded_first_success_exhaustion
    (f g : Nat → Option String) (i : Nat) (t : String)
    (hi : i < 10) (hbefore : ∀ j, j < i → f j = none) (hf : f i = some t)
    (hnever : ∀ j, g j = none) :
    pollLoop f = ⟨some t, i + 1, i⟩ ∧ pollLoop g = ⟨none, 10, 10⟩ ∧
    ∀ h : Nat → Option String, (pollLoop h).checks ≤ 10 := by
  refine ⟨?_, ?_, fun h => pollLoopAux_checks_le h 0 10⟩
  · exact pollLoopAux_first_success f t 10 0 i hi
      (fun j hj => by simpa using hbefore j hj) (by simpa using hf)
  · exact pollLoopAux_never g hnever 10 0

/-- Witness for C2: a store double that succeeds on the third check and one
that never succeeds. -/
theorem c2_poll_bounded_first_success_exhaustion_witness :
    pollLoop (fun n => if n = 2 then some "#EXTM3U" else none) =
      ⟨some "#EXTM3U", 3, 2⟩ ∧
    pollLoop (fun _ => none) = ⟨none, 10, 10⟩ ∧
    ∀ h : Nat → Option String, (pollLoop h).checks ≤ 10 :=
  c2_poll_bounded_first_success_exhaustion
    (fun n => if n = 2 then some "#EXTM3U" else none) (fun _ => none) 2 "#EXTM3U"
    (by decide) (by decide) (by decide) (fun _ => rfl)

/-! ## The playlist signer (`vod_main_server.py` lines 96-110 and 161-173)

Both playlist routes run the same loop over `m3u8_text.splitlines()`: a line
whose stripped form ends in `.ts` is replaced by a presigned URL for the key
`f"{video_name}/{line.strip()}"`, any other line is appended unchanged; a
signing failure raises `HTTPException(500, f"Error signing {ts_key}: {e}")`
immediately.  `sign` is the object-store double for `presigned_get_object`. -/

/-- A FastAPI `HTTPException`: status code and detail string. -/
structure HExc where
  status : Nat
  detail : String
deriving DecidableEq

theorem str_append_empty (s : String) : s ++ "" = s := by
  apply String.ext
  simp [data_append]

theorem strContains_suffix (a b : String) : strContains (a ++ b) b = true := by
  have h := strContains_append a b ""
  rwa [str_append_empty] at h

/-- The segment-rewrite loop: sign each `.ts` line in order, pass other lines
through, abort with the signing error of the first failing segment. -/
def signLoop (sign : String → Except String String) (video_name : String) :
    List String → Except HExc (List String)
  | [] => .ok []
  | line :: rest =>
    if pyEndsWith (pyStrip line) ".ts" then
      match sign (video_name ++ "/" ++ pyStrip line) with
      | .error e =>
        .error ⟨500, "Error signing " ++ (video_name ++ "/" ++ pyStrip line) ++ ": " ++ e⟩
      | .ok url =>
        match signLoop sign video_name rest with
        | .error e2 => .error e2
        | .ok ls => .ok (url :: ls)
    else
      match signLoop sign video_name rest with
      | .error e2 => .error e2
      | .ok ls => .ok (line :: ls)

/-- Successful runs of the loop preserve line count and rewrite exactly the
segment lines, in place. -/
theorem signLoop_ok_spec (sign : String → Except String String) (vn : String)
    (lines : List String) :
    ∀ out, signLoop sign vn lines = .ok out →
      out.length = lines.length ∧
      ∀ i, i < lines.length →
        (pyEndsWith (pyStrip (lines.getD i "")) ".ts" = false →
          out.getD i "" = lines.getD i "") ∧
        (pyEndsWith (pyStrip (lines.getD i "")) ".ts" = true →
          sign (vn ++ "/" ++ pyStrip (lines.getD i "")) = .ok (out.getD i "")) := by
  induction lines with
  | nil =>
    intro out hout
    simp only [signLoop] at hout
    cases hout
    exact ⟨rfl, fun i hi => absurd hi (by simp)⟩
  | cons line rest ih =>
    intro out hout
    by_cases hseg : pyEndsWith (pyStrip line) ".ts" = true
    · simp only [signLoop, hseg, if_pos] at hout
      cases hsig : sign (vn ++ "/" ++ pyStrip line) with
      | error e => rw [hsig] at hout; cases hout
      | ok url =>
        rw [hsig] at hout
        cases hrec : signLoop sign vn rest with
        | error e2 => rw [hrec] at hout; cases hout
        | ok ls =>
          rw [hrec] at hout
          cases hout
          obtain ⟨hlen, hidx⟩ := ih ls hrec
          refine ⟨by simp [hlen], ?_⟩
          intro i hi
          cases i with
          | zero =>
            refine ⟨fun hns => ?_, fun _ => by simpa using hsig⟩
            have hf : pyEndsWith (pyStrip line) ".ts" = false := by simpa using hns
            simp [hf] at hseg
          | succ n =>
            have hn : n < rest.length := by simpa using hi
            simpa using hidx n hn
    · rw [Bool.not_eq_true] at hseg
      simp only [signLoop, hseg, Bool.false_eq_true, if_false] at hout
      cases hrec : signLoop sign vn rest with
      | error e2 => rw [hrec] at hout; cases hout
      | ok ls =>
        rw [hrec] at hout
        cases hout
        obtain ⟨hlen, hidx⟩ := ih ls hrec
        refine ⟨by simp [hlen], ?_⟩
        intro i hi
        cases i with
        | zero => exact ⟨fun _ => rfl, fun hs => absurd hs (by simp [hseg])⟩
        | succ n =>
          have hn : n < rest.length := by simpa using hi
          simpa using hidx n hn

/-- If any segment line of the input cannot be signed, the loop aborts with an
error. -/
theorem signLoop_error_of_failing_segment (sign : String → Except String String)
    (vn : String) (lines : List String)
    (hfail : ∃ line ∈ lines, pyEndsWith (pyStrip line) ".ts" = true ∧
      ∃ e, sign (vn ++ "/" ++ pyStrip line) = .error e) :
    ∃ exc, signLoop sign vn lines = .error exc := by
  induction lines with
  | nil => obtain ⟨line, hmem, -⟩ := hfail; cases hmem
  | cons l rest ih =>
    obtain ⟨line, hmem, hseg, e, hsig⟩ := hfail
    cases hmem with
    | head =>
      by_cases hlseg : pyEndsWith (pyStrip l) ".ts" = true
      · simp only [signLoop, hlseg, if_pos, hsig]
        exact ⟨_, rfl⟩
      · exact absurd hseg hlseg
    | tail _ hmem2 =>
      obtain ⟨exc, hrec⟩ := ih ⟨line, hmem2, hseg, e, hsig⟩
      by_cases hlseg : pyEndsWith (pyStrip l) ".ts" = true
      · cases hsigl : sign (vn ++ "/" ++ pyStrip l) with
        | error e2 =>
          refine ⟨⟨500, "Error signing " ++ (vn ++ "/" ++ pyStrip l) ++ ": " ++ e2⟩, ?_⟩
          simp only [signLoop, hlseg, if_pos, hsigl]
        | ok url => exact ⟨exc, by simp only [signLoop, hlseg, if_pos, hsigl, hrec]⟩
      · rw [Bool.not_eq_true] at hlseg
        exact ⟨exc, by simp only [signLoop, hlseg, Bool.false_eq_true, if_false, hrec]⟩

/-- C3: the playlist signer is a line-by-line transform preserving line count
and order: a line whose stripped form does not end in `.ts` appears unchanged
in the same position, a segment line is replaced in place by the signed URL
for the storage key `{video_name}/{segment_name}`, and on the 3-line input
`["#EXTM3U", "seg0.ts", "#EXT-X-ENDLIST"]` the output has exactly 3 lines,
lines 1 and 3 unchanged and line 2 a URL containing `seg0.ts`. -/
theorem c3_signer_order_preserving_line_transform
    (sign : String → Except String String) (vn : String) (lines out : List String)
    (hok : signLoop sign vn lines = .ok out)
    (hurl : ∀ k u, sign k = .ok u → strContains u k = true) :
    out.length = lines.length ∧
    (∀ i, i < lines.length →
      pyEndsWith (pyStrip (lines.getD i "")) ".ts" = false →
        out.getD i "" = lines.getD i "") ∧
    (∀ i, i < lines.length →
      pyEndsWith (pyStrip (lines.getD i "")) ".ts" = true →
        sign (vn ++ "/" ++ pyStrip (lines.getD i "")) = .ok (out.getD i "")) ∧
    (lines = splitlines "#EXTM3U\nseg0.ts\n#EXT-X-ENDLIST" →
      out.length = 3 ∧ out.getD 0 "" = "#EXTM3U" ∧
      out.getD 2 "" = "#EXT-X-ENDLIST" ∧
      strContains (out.getD 1 "") "seg0.ts" = true) := by
  obtain ⟨hlen, hidx⟩ := signLoop_ok_spec sign vn lines out hok
  refine ⟨hlen, fun i hi => (hidx i hi).1, fun i hi => (hidx i hi).2, ?_⟩
  intro hex
  have hex3 : lines = ["#EXTM3U", "seg0.ts", "#EXT-X-ENDLIST"] := by
    rw [hex]; decide
  subst hex3
  have h0 := (hidx 0 (by decide)).1 (by decide)
  have h2 := (hidx 2 (by decide)).1 (by decide)
  have h1 := (hidx 1 (by decide)).2 (by decide)
  have h1s : sign (vn ++ "/" ++ pyStrip "seg0.ts") = .ok (out.getD 1 "") := by
    simpa using h1
  have hkey : pyStrip "seg0.ts" = "seg0.ts" := by decide
  rw [hkey] at h1s
  have hcont : strContains (out.getD 1 "") (vn ++ "/" ++ "seg0.ts") = true :=
    hurl _ _ h1s
  have hsub : strContains (vn ++ "/" ++ "seg0.ts") "seg0.ts" = true :=
    strContains_suffix (vn ++ "/") "seg0.ts"
  exact ⟨hlen, by simpa using h0, by simpa using h2,
    strContains_trans hcont hsub⟩

/-- Witness for C3: a concrete signer double whose URLs embed the storage key,
applied to the specification's 3-line example playlist. -/
theorem c3_signer_order_preserving_line_transform_witness :
    (["#EXTM3U", "http://minio.local/video/seg0.ts?sig=abc",
        "#EXT-X-ENDLIST"] : List String).length =
      (splitlines "#EXTM3U\nseg0.ts\n#EXT-X-ENDLIST").length ∧
    strContains "http://minio.local/video/seg0.ts?sig=abc" "seg0.ts" = true := by
  have h := c3_signer_order_preserving_line_transform
    (fun k => .ok ("http://minio.local/" ++ k ++ "?sig=abc")) "video"
    (splitlines "#EXTM3U\nseg0.ts\n#EXT-X-ENDLIST")
    ["#EXTM3U", "http://minio.local/video/seg0.ts?sig=abc", "#EXT-X-ENDLIST"]
    rfl
    (fun k u hku => by
      cases hku
      exact strContains_append "http://minio.local/" k "?sig=abc")
  exact ⟨h.1.symm ▸ rfl, (h.2.2.2 rfl).2.2.2⟩

/-! ## The stream route (`vod_main_server.py` lines 119-179)

`GET /stream/{video_bucket}/{video_path:path}/playlist.m3u8`: cache lookup,
playlist fetch, lazy-transcode with poll on any fetch failure, signing, cache
population.  The `try` at line 141 encloses both the submission-failure raise
(line 143) and the 504 raise of the poll loop (line 156); its handler at
line 157 catches every `Exception` — FastAPI `HTTPException` included — and
re-raises `HTTPException(500, f"Transcoding exception: {e}")`, where Python
renders `str(HTTPException(s, d))` as `f"{s}: {d}"`. -/

/-- Outcome of a `client_minio.get_object` + `read().decode()` for the
playlist key: the text, or one of the failure modes the store can report
(`except Exception` in the code does not distinguish them). -/
inductive FetchResult where
  | ok (text : String)
  | notFound
  | storeUnavailable
deriving DecidableEq

/-- Whether a fetch produced playlist text. -/
def FetchResult.isOk : FetchResult → Bool
  | .ok _ => true
  | _ => false

/-- Doubles for the external collaborators of one stream-route request:
the Redis cache lookup, the initial playlist fetch, the result of the
`auto_transcode` submission, the per-attempt poll fetch, and the
`presigned_get_object` signer. -/
structure StreamEnv where
  cached : Option String
  fetch0 : FetchResult
  submitOk : Bool
  pollFetch : Nat → Option String
  sign : String → Except String String

/-- Python `str()` of a Starlette `HTTPException`. -/
def strOfHExc (e : HExc) : String := Nat.repr e.status ++ ": " ++ e.detail

example : strOfHExc ⟨504, "x"⟩ = "504: x" := rfl

/-- Lines 141-158: submit the transcode job, poll, and wrap any exception of
the inner block — the 500 of a failed submission and the 504 of an exhausted
poll alike — into `HTTPException(500, f"Transcoding exception: {e}")`. -/
def lazyStage (submitOk : Bool) (pollFetch : Nat → Option String) :
    Except HExc String :=
  let inner : Except HExc String :=
    if submitOk = false then .error ⟨500, "Auto-transcoding failed"⟩
    else
      match (pollLoop pollFetch).result with
      | some t => .ok t
      | none => .error ⟨504, "Playlist still not available after transcoding"⟩
  match inner with
  | .ok t => .ok t
  | .error e => .error ⟨500, "Transcoding exception: " ++ strOfHExc e⟩

/-- Lines 136-158: fetch the playlist; on any failure enter lazy-transcode
mode.  Returns the raw playlist text (or the raised exception) and whether a
transcode job submission was attempted. -/
def obtainText (env : StreamEnv) : Except HExc String × Bool :=
  match env.fetch0 with
  | .ok t => (.ok t, false)
  | _ => (lazyStage env.submitOk env.pollFetch, true)

/-- Observable outcome of one stream-route request: the HTTP result, whether
a transcode job was submitted, and the Redis `setex` writes performed. -/
structure RouteOut where
  result : Except HExc String
  submitAttempted : Bool
  cacheSets : List (String × String)

/-- The stream route `serve_signed_playlist` (lines 119-179). -/
def streamRoute (env : StreamEnv) (video_path : String) : RouteOut :=
  let video_name := pathStem video_path
  match env.cached with
  | some c => ⟨.ok c, false, []⟩
  | none =>
    match obtainText env with
    | (.error e, sub) => ⟨.error e, sub, []⟩
    | (.ok t, sub) =>
      match signLoop env.sign video_name (splitlines t) with
      | .error e => ⟨.error e, sub, []⟩
      | .ok ls => ⟨.ok (pyJoin "\n" ls), sub, [(playlistCacheKey video_name, pyJoin "\n" ls)]⟩

/-- C1 (code bug): when the transcode job was submitted successfully and the
playlist is still absent after all poll attempts, the route does not fail with
HTTP 504 — the `except Exception` at line 157 catches the 504 raised by the
poll loop and re-raises HTTP 500 `Transcoding exception: 504: ...`, the same
status code as a submission failure, contradicting the comments at lines
145-147 (`raise a 504 error`).  Both failure modes are evaluated here. -/
theorem c1_poll_exhaustion_surfaces_500_not_504 :
    streamRoute ⟨none, .notFound, true, fun _ => none, fun _ => Except.error "unused"⟩
        "show.mp4" =
      ⟨.error ⟨500,
        "Transcoding exception: 504: Playlist still not available after transcoding"⟩,
        true, []⟩ ∧
    streamRoute ⟨none, .notFound, false, fun _ => none, fun _ => Except.error "unused"⟩
        "show.mp4" =
      ⟨.error ⟨500, "Transcoding exception: 500: Auto-transcoding failed"⟩,
        true, []⟩ :=
  ⟨rfl, rfl⟩

/-- C6 counterexample: a storage failure other than not-found (the store is
unavailable) also makes the route submit a transcode job, so it is false that
lazy-transcode mode is entered exactly on not-found and that other storage
failures are surfaced without submitting a job. -/
theorem c6_store_unavailable_submits_job_cex :
    (streamRoute ⟨none, .storeUnavailable, true, fun _ => none,
        fun _ => Except.error "x"⟩ "show.mp4").submitAttempted = true := rfl

theorem streamRoute_submitAttempted (env : StreamEnv) (vp : String)
    (h : env.cached = none) :
    (streamRoute env vp).submitAttempted = (obtainText env).2 := by
  unfold streamRoute
  rw [h]
  cases hob : obtainText env with
  | mk r sub =>
    cases r with
    | error e => simp
    | ok t =>
      simp only
      cases signLoop env.sign (pathStem vp) (splitlines t) <;> simp

/-- C6 (amended): on a cache miss the resolver enters lazy-transcode mode
(submitting a transcode job) exactly when the initial playlist fetch fails for
any reason — not-found and any other storage failure (e.g. store unavailable)
alike; only a successful fetch avoids job submission. -/
theorem c6_lazy_mode_on_any_fetch_failure (env : StreamEnv) (vp : String)
    (h : env.cached = none) :
    (streamRoute env vp).submitAttempted = !env.fetch0.isOk := by
  rw [streamRoute_submitAttempted env vp h]
  obtain ⟨cached, fetch0, submitOk, pollFetch, sign⟩ := env
  cases fetch0 <;> rfl

/-- Witness for C6 (amended): a store-unavailable fetch on a cache miss. -/
theorem c6_lazy_mode_on_any_fetch_failure_witness :
    (streamRoute ⟨none, .storeUnavailable, false, fun _ => none,
        fun _ => Except.error "x"⟩ "clip.mp4").submitAttempted =
      !(FetchResult.storeUnavailable).isOk :=
  c6_lazy_mode_on_any_fetch_failure
    ⟨none, .storeUnavailable, false, fun _ => none, fun _ => Except.error "x"⟩
    "clip.mp4" rfl

/-- C4: signing is atomic with respect to the cache.  If any segment line of
the retrieved playlist cannot be signed, the request fails with a propagated
signing error and no cache write occurs; and any cache write that does occur
carries the fully signed playlist, written only after every segment line was
signed successfully. -/
theorem c4_signing_atomic_wrt_cache (env : StreamEnv) (vp t : String)
    (hmiss : env.cached = none) (htext : (obtainText env).1 = .ok t)
    (hfail : ∃ line ∈ splitlines t, pyEndsWith (pyStrip line) ".ts" = true ∧
      ∃ e, env.sign (pathStem vp ++ "/" ++ pyStrip line) = .error e) :
    (∃ exc, (streamRoute env vp).result = .error exc) ∧
    (streamRoute env vp).cacheSets = [] ∧
    ∀ env2 : StreamEnv, ∀ vp2 k v : String,
      (k, v) ∈ (streamRoute env2 vp2).cacheSets →
      ∃ t2 ls, (obtainText env2).1 = .ok t2 ∧
        signLoop env2.sign (pathStem vp2) (splitlines t2) = .ok ls ∧
        k = playlistCacheKey (pathStem vp2) ∧ v = pyJoin "\n" ls := by
  obtain ⟨exc, hsl⟩ :=
    signLoop_error_of_failing_segment env.sign (pathStem vp) (splitlines t) hfail
  have hmain : streamRoute env vp = ⟨.error exc, (obtainText env).2, []⟩ := by
    unfold streamRoute
    rw [hmiss]
    cases hob : obtainText env with
    | mk r sub =>
      rw [hob] at htext
      simp only at htext
      subst htext
      simp only [hsl]
  refine ⟨⟨exc, by rw [hmain]⟩, by rw [hmain], ?_⟩
  intro env2 vp2 k v hmem
  cases hc : env2.cached with
  | some c =>
    unfold streamRoute at hmem
    rw [hc] at hmem
    cases hmem
  | none =>
    unfold streamRoute at hmem
    rw [hc] at hmem
    cases hob : obtainText env2 with
    | mk r sub =>
      rw [hob] at hmem
      cases r with
      | error e => cases hmem
      | ok t2 =>
        simp only at hmem
        cases hrec : signLoop env2.sign (pathStem vp2) (splitlines t2) with
        | error e => rw [hrec] at hmem; cases hmem
        | ok ls =>
          rw [hrec] at hmem
          simp only [List.mem_singleton, Prod.mk.injEq] at hmem
          exact ⟨t2, ls, rfl, hrec, hmem.1, hmem.2⟩

/-- Witness for C4: a retrieved two-line playlist whose only segment line
cannot be signed — the request errors and nothing is written to the cache. -/
theorem c4_signing_atomic_wrt_cache_witness :
    (∃ exc, (streamRoute ⟨none, .ok "#EXTM3U\nseg0.ts", true, fun _ => none,
        fun _ => Except.error "boom"⟩ "show.mp4").result = .error exc) ∧
    (streamRoute ⟨none, .ok "#EXTM3U\nseg0.ts", true, fun _ => none,
        fun _ => Except.error "boom"⟩ "show.mp4").cacheSets = [] := by
  have h := c4_signing_atomic_wrt_cache
    ⟨none, .ok "#EXTM3U\nseg0.ts", true, fun _ => none, fun _ => Except.error "boom"⟩
    "show.mp4" "#EXTM3U\nseg0.ts" rfl rfl
    ⟨"seg0.ts", by decide, by decide, "boom", rfl⟩
  exact ⟨h.1, h.2.1⟩

/-! ## Cache invalidation gateway (`vod_main_server.py` lines 181-251)

`delete_cache_video` checks the shared secret, calls
`invalidate_playlist_cache` (a Redis `DEL` returning the number of keys
removed, truthy iff nonzero) and answers HTTP 200 with either the
"Cache cleared" or the generic "Cache error" message.  `delete_stream_video`
additionally lists the stored objects under the video-name prefix, deletes
them, and reports per-object deletion errors. -/

/-- Response of the cache-deletion endpoints: a raised `HTTPException` or an
HTTP 200 body with a message. -/
inductive CacheDelResp where
  | httpError (status : Nat) (detail : String)
  | message (msg : String)
deriving DecidableEq

/-- DELETE `/cache/video/{video_name}` (lines 181-191).  `delCount` is the
value returned by the Redis `DEL` of the playlist cache key. -/
def delete_cache_video (authOk : Bool) (delCount : Nat)
    (video_name : String) : CacheDelResp :=
  if authOk = false then .httpError 403 "Unauthorized"
  else if delCount ≠ 0 then .message ("Cache cleared for '" ++ video_name ++ "'")
  else .message ("Cache error for '" ++ video_name ++ "'")

/-- C9 counterexample: invalidating the never-cached key `show` (the Redis
`DEL` removed 0 keys) answers with the message `Cache error for 'show'` — the
same generic error report as any cache failure, not a not-found/no-op outcome
without an error. -/
theorem c9_never_cached_reports_cache_error_cex :
    delete_cache_video true 0 "show" = .message "Cache error for 'show'" ∧
    strContains "Cache error for 'show'" "error" = true ∧
    ("Cache error for 'show'" : String) ≠ "Cache cleared for 'show'" := by
  exact ⟨rfl, by decide, by decide⟩

/-- C9 (amended): invalidation of a never-cached key does not raise an HTTP
error (the endpoint still answers HTTP 200), but the body it returns is the
generic degraded "Cache error" message — which does not distinguish not-found
from a failed delete — rather than a distinct not-found/no-op outcome. -/
theorem c9_never_cached_degraded_success (video_name : String) :
    delete_cache_video true 0 video_name =
      .message ("Cache error for '" ++ video_name ++ "'") ∧
    ∀ s d, delete_cache_video true 0 video_name ≠ .httpError s d := by
  refine ⟨rfl, ?_⟩
  intro s d h
  exact CacheDelResp.noConfusion h

/-- Doubles for one `delete_stream_video` request: the auth check outcome, the
object names in the bucket, the Redis `DEL` count for the playlist cache key,
and the per-object deletion error reported by `remove_objects`. -/
structure DelEnv where
  authOk : Bool
  store : List String
  cacheDelCount : Nat
  delErr : String → Option String

/-- Response of `delete_stream_video`: a raised `HTTPException` or the HTTP
200 body with its two messages. -/
inductive DelOut where
  | httpError (status : Nat) (detail : String)
  | okResp (delete_message cache_message : String)
deriving DecidableEq

/-- Observable outcome of one `delete_stream_video` request: the response, the
object names still stored afterwards, and whether the playlist cache key was
deleted. -/
structure DelResult where
  out : DelOut
  finalStore : List String
  cacheInvalidated : Bool

/-- Python `repr` of a list of (quote-free) strings, as `f"{errors}"` renders
it. -/
def pyReprStrList (xs : List String) : String :=
  "[" ++ pyJoin ", " (xs.map (fun s => "'" ++ s ++ "'")) ++ "]"

/-- The objects listed under the video-name prefix (line 211-214,
`list_objects(video_bucket, prefix=playlist_folder, recursive=True)`). -/
def delete_objs (env : DelEnv) (video_name : String) : List String :=
  env.store.filter (fun o => isPrefOf video_name.data o.data)

/-- The per-object error strings collected from `remove_objects`
(lines 229-231). -/
def delete_errors (env : DelEnv) (video_name : String) : List String :=
  (delete_objs env video_name).filterMap
    (fun o => (env.delErr o).map (fun e => o ++ ": " ++ e))

/-- Store contents after `remove_objects`: every listed object whose deletion
did not error is gone. -/
def delete_finalStore (env : DelEnv) (video_name : String) : List String :=
  env.store.filter (fun o => !(isPrefOf video_name.data o.data && (env.delErr o).isNone))

/-- The cache message computed at lines 203-208 (before any storage work). -/
def delete_cache_message (env : DelEnv) (video_name : String) : String :=
  if env.cacheDelCount ≠ 0 then "Cache cleared for '" ++ video_name ++ "'"
  else "Cache error for '" ++ video_name ++ "'"

/-- DELETE `/stream/{video_bucket}/{video_path:path}/playlist.m3u8`
(lines 193-251). -/
def delete_stream_video (env : DelEnv) (video_bucket video_path : String) :
    DelResult :=
  if env.authOk = false then ⟨.httpError 403 "Unauthorized", env.store, false⟩
  else if (delete_objs env (pathStem video_path)).isEmpty then
    ⟨.httpError 404 ("No files found in '" ++ video_bucket ++ "/" ++
      pathStem video_path ++ "'"), env.store, true⟩
  else if (delete_errors env (pathStem video_path)).isEmpty then
    ⟨.okResp ("Stream '" ++ video_bucket ++ "/" ++ pathStem video_path ++ "' deleted")
        (delete_cache_message env (pathStem video_path)),
      delete_finalStore env (pathStem video_path), true⟩
  else
    ⟨.httpError 500 ("Failed to delete one or more files: " ++
        pyReprStrList (delete_errors env (pathStem video_path))),
      delete_finalStore env (pathStem video_path), true⟩

theorem str_empty_append (s : String) : "" ++ s = s := by
  apply String.ext
  simp [data_append]

theorem strContains_left (a b : String) : strContains (a ++ b) a = true := by
  have h := strContains_append "" a b
  rwa [str_empty_append] at h

/-- Each failed object name occurs in the rendered error-list message. -/
theorem strContains_pyReprStrList (xs : List String) (o e : String)
    (hmem : (o ++ ": " ++ e) ∈ xs) (head : String) :
    strContains (head ++ pyReprStrList xs) o = true := by
  obtain ⟨pre, post, hj⟩ :=
    contains_of_pyJoin_mem ", " ("'" ++ (o ++ ": " ++ e) ++ "'")
      (xs.map (fun s => "'" ++ s ++ "'"))
      (List.mem_map.mpr ⟨o ++ ": " ++ e, hmem, rfl⟩)
  have hq : strContains ("'" ++ (o ++ ": " ++ e) ++ "'") o = true := by
    have h1 : strContains ("'" ++ (o ++ ": " ++ e) ++ "'") (o ++ ": " ++ e) = true :=
      strContains_append "'" (o ++ ": " ++ e) "'"
    have h2 : strContains (o ++ ": " ++ e) (o ++ ": ") = true :=
      strContains_left (o ++ ": ") e
    have h3 : strContains (o ++ ": ") o = true := strContains_left o ": "
    exact strContains_trans (strContains_trans h1 h2) h3
  have hmsg : head ++ pyReprStrList xs =
      (head ++ "[" ++ pre) ++ ("'" ++ (o ++ ": " ++ e) ++ "'") ++ (post ++ "]") := by
    unfold pyReprStrList
    rw [hj]
    simp only [str_append_assoc]
  rw [hmsg]
  exact strContains_trans
    (strContains_append (head ++ "[" ++ pre) ("'" ++ (o ++ ": " ++ e) ++ "'") (post ++ "]"))
    hq

/-- C8: the authenticated stream-deletion endpoint invalidates the playlist
cache entry independently of the storage outcome; when no object exists under
the video-name prefix it fails with 404 not-found; when every listed object
deletes cleanly it reports success and every object under the prefix is gone;
and when any individual deletion fails the whole operation fails with a 500
whose message contains the failed object's name, while the successfully
deleted objects stay deleted. -/
theorem c8_delete_stream_list_delete_invalidate (env : DelEnv)
    (video_bucket video_path : String) (hauth : env.authOk = true) :
    (delete_stream_video env video_bucket video_path).cacheInvalidated = true ∧
    (delete_objs env (pathStem video_path) = [] →
      (delete_stream_video env video_bucket video_path).out =
        .httpError 404 ("No files found in '" ++ video_bucket ++ "/" ++
          pathStem video_path ++ "'") ∧
      (delete_stream_video env video_bucket video_path).finalStore = env.store) ∧
    (delete_objs env (pathStem video_path) ≠ [] →
      (∀ o ∈ delete_objs env (pathStem video_path), env.delErr o = none) →
      (delete_stream_video env video_bucket video_path).out =
        .okResp ("Stream '" ++ video_bucket ++ "/" ++ pathStem video_path ++ "' deleted")
          (delete_cache_message env (pathStem video_path)) ∧
      (delete_stream_video env video_bucket video_path).finalStore =
        env.store.filter (fun o => !isPrefOf (pathStem video_path).data o.data)) ∧
    (∀ o0 ∈ delete_objs env (pathStem video_path), ∀ e0, env.delErr o0 = some e0 →
      (∃ msg, (delete_stream_video env video_bucket video_path).out =
        .httpError 500 msg ∧ strContains msg o0 = true) ∧
      (delete_stream_video env video_bucket video_path).finalStore =
        delete_finalStore env (pathStem video_path)) := by
  have hred : delete_stream_video env video_bucket video_path =
      (if (delete_objs env (pathStem video_path)).isEmpty then
        ⟨.httpError 404 ("No files found in '" ++ video_bucket ++ "/" ++
          pathStem video_path ++ "'"), env.store, true⟩
      else if (delete_errors env (pathStem video_path)).isEmpty then
        ⟨.okResp ("Stream '" ++ video_bucket ++ "/" ++ pathStem video_path ++ "' deleted")
            (delete_cache_message env (pathStem video_path)),
          delete_finalStore env (pathStem video_path), true⟩
      else
        ⟨.httpError 500 ("Failed to delete one or more files: " ++
            pyReprStrList (delete_errors env (pathStem video_path))),
          delete_finalStore env (pathStem video_path), true⟩ : DelResult) := by
    unfold delete_stream_video
    simp [hauth]
  refine ⟨?_, ?_, ?_, ?_⟩
  · rw [hred]
    by_cases h1 : (delete_objs env (pathStem video_path)).isEmpty
    · simp [h1]
    · by_cases h2 : (delete_errors env (pathStem video_path)).isEmpty <;>
        simp [h1, h2]
  · intro hempty
    have h1 : (delete_objs env (pathStem video_path)).isEmpty = true := by
      simp [hempty]
    rw [hred]
    simp [h1]
  · intro hne hok
    have h1 : (delete_objs env (pathStem video_path)).isEmpty = false := by
      simpa [List.isEmpty_iff] using hne
    have h2 : (delete_errors env (pathStem video_path)).isEmpty = true := by
      rw [List.isEmpty_iff]
      unfold delete_errors
      rw [List.filterMap_eq_nil_iff]
      intro o hmem
      simp [hok o hmem]
    constructor
    · rw [hred]
      simp [h1, h2]
    · rw [hred]
      simp only [h1, Bool.false_eq_true, if_false, h2, if_true]
      unfold delete_finalStore
      apply List.filter_congr
      intro o hmem
      by_cases hp : isPrefOf (pathStem video_path).data o.data = true
      · have : env.delErr o = none := hok o (by
          unfold delete_objs
          exact List.mem_filter.mpr ⟨hmem, hp⟩)
        simp [hp, this]
      · simp only [Bool.not_eq_true] at hp
        simp [hp]
  · intro o0 hmem0 e0 herr0
    have hne : (delete_objs env (pathStem video_path)).isEmpty = false := by
      rw [List.isEmpty_eq_false_iff_exists_mem]
      exact ⟨o0, hmem0⟩
    have hmemErr : (o0 ++ ": " ++ e0) ∈ delete_errors env (pathStem video_path) := by
      unfold delete_errors
      rw [List.mem_filterMap]
      exact ⟨o0, hmem0, by rw [herr0]; rfl⟩
    have herrs : (delete_errors env (pathStem video_path)).isEmpty = false := by
      rw [List.isEmpty_eq_false_iff_exists_mem]
      exact ⟨_, hmemErr⟩
    constructor
    · refine ⟨"Failed to delete one or more files: " ++
        pyReprStrList (delete_errors env (pathStem video_path)), ?_, ?_⟩
      · rw [hred]
        simp [hne, herrs]
      · exact strContains_pyReprStrList _ o0 e0 hmemErr _
    · rw [hred]
      simp [hne, herrs]

/-- Witness for C8: deleting a stream whose assets are
`a/index.m3u8, a/seg0.ts, a/seg1.ts` removes all three, reports success, and
the cache entry is invalidated. -/
theorem c8_delete_stream_list_delete_invalidate_witness :
    (delete_stream_video
        ⟨true, ["a/index.m3u8", "a/seg0.ts", "a/seg1.ts"], 1, fun _ => none⟩
        "vod" "a.mp4").cacheInvalidated = true ∧
    (delete_stream_video
        ⟨true, ["a/index.m3u8", "a/seg0.ts", "a/seg1.ts"], 1, fun _ => none⟩
        "vod" "a.mp4").out =
      .okResp ("Stream '" ++ "vod" ++ "/" ++ pathStem "a.mp4" ++ "' deleted")
        (delete_cache_message
          ⟨true, ["a/index.m3u8", "a/seg0.ts", "a/seg1.ts"], 1, fun _ => none⟩
          (pathStem "a.mp4")) ∧
    (delete_stream_video
        ⟨true, ["a/index.m3u8", "a/seg0.ts", "a/seg1.ts"], 1, fun _ => none⟩
        "vod" "a.mp4").finalStore =
      (["a/index.m3u8", "a/seg0.ts", "a/seg1.ts"] : List String).filter
        (fun o => !isPrefOf (pathStem "a.mp4").data o.data) := by
  have h := c8_delete_stream_list_delete_invalidate
    ⟨true, ["a/index.m3u8", "a/seg0.ts", "a/seg1.ts"], 1, fun _ => none⟩
    "vod" "a.mp4" rfl
  have h3 := h.2.2.1 (by decide) (fun o _ => rfl)
  exact ⟨h.1, h3.1, h3.2⟩

/-! ## Transcode job runner (`video_transcoding_main_server.py`)

`POST /transcode`: auth check, then `download_file` → `convert_to_hls` →
`upload_folder` inside a `try`, with `except Exception as e: raise
HTTPException(500, detail=str(e))` and `finally: if tmp_video_folder.exists():
shutil.rmtree(tmp_video_folder)`.  The embedding follows Python local-variable
semantics: `tmp_video_folder` is bound only when `download_file` returns, so
when `download_file` raises, the `finally` block's reference to it raises
`UnboundLocalError`, which replaces the exception being propagated. -/

/-- Detail payload of a runner `HTTPException`: a plain string or the
`ErrorResponse.model_dump()` dict. -/
inductive Detail where
  | text (s : String)
  | structured (error : String) (detail : String)
deriving DecidableEq

/-- Python `str()` of a detail payload (`str(dict)` for a model dump). -/
def strOfDetail : Detail → String
  | .text s => s
  | .structured err det =>
    "\x7b'error': '" ++ err ++ "', 'detail': '" ++ det ++ "'\x7d"

/-- An exception propagating inside the runner. -/
inductive PyExc where
  | httpExc (status : Nat) (detail : Detail)
  | runtimeError (msg : String)
  | unboundLocalError (msg : String)
deriving DecidableEq

/-- Python `str()` of an exception (`f"{status}: {detail}"` for a Starlette
`HTTPException`). -/
def strOfPyExc : PyExc → String
  | .httpExc s d => Nat.repr s ++ ": " ++ strOfDetail d
  | .runtimeError m => m
  | .unboundLocalError m => m

/-- Doubles for one `/transcode` invocation: the auth check outcome and the
success/failure of the download, the ffmpeg run, and the uploads (`upErr` is
`str(e)` of the first failing upload, if any). -/
structure TEnv where
  authOk : Bool
  dlOk : Bool
  dlErrMsg : String
  convOk : Bool
  convErrMsg : String
  upErr : Option String

/-- `download_file` (lines 58-83): create the unique workspace directory
`tmp_{uid}`, download into it, and on failure remove the directory itself and
raise a structured 500.  Returns the raised exception or the folder name,
together with the directories existing afterwards. -/
def download_file (env : TEnv) (uid : String) (folders : List String) :
    Except PyExc String × List String :=
  let folder := "tmp_" ++ uid
  let folders1 := folders ++ [folder]
  if env.dlOk then (.ok folder, folders1)
  else
    (.error (.httpExc 500
        (.structured "Error downloading object from MinIO" env.dlErrMsg)),
      folders1.filter (fun f => f ≠ folder))

/-- `convert_to_hls` (lines 85-135): raises
`RuntimeError(f"FFmpeg error: {stderr}")` when ffmpeg fails. -/
def convert_to_hls (env : TEnv) : Except PyExc Unit :=
  if env.convOk then .ok ()
  else .error (.runtimeError ("FFmpeg error: " ++ env.convErrMsg))

/-- `upload_folder` via `upload_file` (lines 138-168): the first failing
upload raises a structured 500. -/
def upload_folder_result (env : TEnv) : Except PyExc Unit :=
  match env.upErr with
  | none => .ok ()
  | some e => .error (.httpExc 500 (.structured "Error uploading file to MinIO" e))

/-- Observable outcome of one `/transcode` invocation: the response (or
escaped exception) and the temporary directories still existing at return. -/
structure TOut where
  response : Except PyExc String
  folders : List String

/-- `transcode_video` (lines 172-203). -/
def transcode_video (env : TEnv) (uid asset_object : String) : TOut :=
  if env.authOk = false then ⟨.error (.httpExc 403 (.text "Unauthorized")), []⟩
  else
    let video_name := pathStem asset_object
    let step : Except PyExc String × Option String × List String :=
      match download_file env uid [] with
      | (.error e, fs) => (.error e, none, fs)
      | (.ok folder, fs) =>
        match convert_to_hls env with
        | .error e => (.error e, some folder, fs)
        | .ok _ =>
          match upload_folder_result env with
          | .error e => (.error e, some folder, fs)
          | .ok _ => (.ok video_name, some folder, fs)
    let handled : Except PyExc String :=
      match step.1 with
      | .ok v => .ok v
      | .error e => .error (.httpExc 500 (.text (strOfPyExc e)))
    match step.2.1 with
    | none =>
      ⟨.error (.unboundLocalError
        "cannot access local variable 'tmp_video_folder' where it is not associated with a value"),
        step.2.2⟩
    | some folder => ⟨handled, step.2.2.filter (fun f => f ≠ folder)⟩

/-- C5 (code bug): the temporary workspace is indeed deleted on every path —
success, download failure, transcoder failure and upload failure alike — but
on the download-failure path the original failure is not surfaced as a
structured error response: `download_file` raises before `tmp_video_folder`
is ever bound, so the `finally` block raises `UnboundLocalError`, which
replaces the structured 500 and surfaces as a bare internal server error.
All four paths are evaluated here. -/
theorem c5_cleanup_all_paths_but_download_error_masked :
    transcode_video ⟨true, true, "", true, "", none⟩ "u1" "clip.mp4" =
      ⟨.ok "clip", []⟩ ∧
    transcode_video ⟨true, false, "S3 connect error", true, "", none⟩ "u1" "clip.mp4" =
      ⟨.error (.unboundLocalError
        "cannot access local variable 'tmp_video_folder' where it is not associated with a value"),
        []⟩ ∧
    transcode_video ⟨true, true, "", false, "invalid data stream", none⟩ "u1" "clip.mp4" =
      ⟨.error (.httpExc 500 (.text "FFmpeg error: invalid data stream")), []⟩ ∧
    transcode_video ⟨true, true, "", true, "", some "access denied"⟩ "u1" "clip.mp4" =
      ⟨.error (.httpExc 500 (.text
        "500: \x7b'error': 'Error uploading file to MinIO', 'detail': 'access denied'\x7d")),
        []⟩ :=
  ⟨rfl, rfl, rfl, rfl⟩

end Mam
